import Mathlib

/-!
Verification of the WordLetter1 backend (`server/index.js`).

The server exposes three letter endpoints:
  * `POST /api/letters`      — create a letter (folder ensure, doc create,
    content insert, reparent);
  * `GET  /api/letters`      — list letters in the "Letters" folder;
  * `GET  /api/letters/:id`  — read a letter and flatten its structured
    body to plain text.

Each handler is embedded as a pure function from the request data and an
oracle environment (the results each downstream Google API call would
return) to a `HandlerResult`: the ordered trace of downstream calls
actually issued, the server log, and the HTTP response.  Downstream
failures are `Except.error` values carrying the error detail string; the
JavaScript `try`/`catch` becomes explicit propagation into the generic
500 branch.
-/

namespace WordLetter

/-- JavaScript truthiness test `!x` on an optional string field of a JSON
body: `undefined`/missing and the empty string are both falsy. -/
def falsy : Option String → Bool
  | none => true
  | some s => s.isEmpty

/-- `drive.files.list` query used to locate the non-trashed "Letters"
folder (lines 80 and 166 of the source). -/
def lettersFolderQuery : String :=
  "mimeType=\x27application/vnd.google-apps.folder\x27 and name=\x27Letters\x27 and trashed=false"

/-- Drive mime type of a folder. -/
def folderMimeType : String := "application/vnd.google-apps.folder"

/-- `drive.files.list` query for the documents inside a folder
(line 178 of the source). -/
def filesInFolderQuery (folderId : String) : String :=
  "\x27" ++ folderId ++ "\x27 in parents and mimeType=\x27application/vnd.google-apps.document\x27 and trashed=false"

/-- One `insertText` request of a `documents.batchUpdate` call. -/
structure InsertTextRequest where
  index : Nat
  text : String
deriving DecidableEq, Repr

/-- A downstream Google API call, with the arguments the server passes. -/
inductive Call where
  | filesList (q : String)
  | filesCreate (name mimeType : String)
  | documentsCreate (title : String)
  | documentsBatchUpdate (documentId : String) (requests : List InsertTextRequest)
  | filesUpdate (fileId addParents : String)
  | documentsGet (documentId : String)
deriving DecidableEq, Repr

/-- A folder entry returned by the folder query (`fields: files(id, name)`). -/
structure FolderRef where
  id : String
  name : String
deriving DecidableEq, Repr

/-- A file entry returned by the folder-contents query
(`fields: files(id, name, webViewLink, createdTime)`). -/
structure FileMeta where
  id : String
  name : String
  webViewLink : String
  createdTime : String
deriving DecidableEq, Repr

/-- A text run of a paragraph element (`element.textRun`). -/
structure TextRun where
  content : String
deriving DecidableEq, Repr

/-- One element of a paragraph; it optionally carries a text run. -/
structure ParagraphElement where
  textRun : Option TextRun
deriving DecidableEq, Repr

/-- A paragraph; its run-element sequence may be absent in the wire
format, in which case `paragraph.elements.forEach` throws. -/
structure Paragraph where
  elements : Option (List ParagraphElement)
deriving DecidableEq, Repr

/-- A block element of the body; non-paragraph blocks have
`paragraph` absent. -/
structure StructuralElement where
  paragraph : Option Paragraph
deriving DecidableEq, Repr

/-- The structured body of a document (`document.data.body`), whose
`content` list may itself be absent. -/
structure Body where
  content : Option (List StructuralElement)
deriving DecidableEq, Repr

/-- The data of a fetched document (`document.data`). -/
structure DocData where
  documentId : String
  title : String
  body : Option Body
deriving DecidableEq, Repr

/-- JSON response bodies produced by the three handlers. -/
inductive RespBody where
  | error (msg : String)
  | created (message documentId documentUrl : String)
  | letters (files : List FileMeta)
  | letter (id title content : String)
deriving DecidableEq, Repr

/-- An HTTP response: status code and JSON body. -/
structure HttpResponse where
  status : Nat
  body : RespBody
deriving DecidableEq, Repr

/-- Result of running a handler: the ordered trace of downstream calls
issued, the `console.error` log, and the response sent. -/
structure HandlerResult where
  trace : List Call
  log : List String
  resp : HttpResponse
deriving DecidableEq, Repr

/-- Request body of `POST /api/letters`. -/
structure CreateBody where
  content : Option String
  title : Option String
  accessToken : Option String
deriving DecidableEq, Repr

/-- Oracle for the downstream calls the create handler can make: the
result each call would return if issued. -/
structure CreateEnv where
  filesList : Except String (List FolderRef)
  filesCreate : Except String String
  documentsCreate : Except String String
  documentsBatchUpdate : Except String Unit
  filesUpdate : Except String Unit

/-- Oracle for the list handler. -/
structure ListEnv where
  filesList : Except String (List FolderRef)
  filesInFolder : Except String (List FileMeta)

/-- Oracle for the read handler. -/
structure ReadEnv where
  documentsGet : Except String DocData

/-- `document.data.body && document.data.body.content` (line 214):
the block list of the fetched body, when both are present. -/
def bodyItems (doc : DocData) : Option (List StructuralElement) :=
  match doc.body with
  | none => none
  | some b => b.content

/-- `content += element.textRun.content` for one run element
(lines 218-220): runs without a text run contribute nothing. -/
def runText (acc : String) (e : ParagraphElement) : String :=
  match e.textRun with
  | none => acc
  | some tr => acc ++ tr.content

/-- The error a JavaScript `forEach` on an absent `elements` array
raises (line 217). -/
def elementsUndefinedError : String :=
  "TypeError: Cannot read properties of undefined"

/-- Processing of one block element (lines 216-223): non-paragraph
blocks are skipped; a paragraph without a run-element sequence throws;
otherwise each run element is folded into the accumulator. -/
def paragraphStep (acc : String) (item : StructuralElement) : Except String String :=
  match item.paragraph with
  | none => Except.ok acc
  | some p =>
    match p.elements with
    | none => Except.error elementsUndefinedError
    | some els => Except.ok (els.foldl runText acc)

/-- The `forEach` loop over the block list (lines 215-223), threading
the string accumulator and propagating a thrown error. -/
def extractBody (items : List StructuralElement) : Except String String :=
  items.foldlM paragraphStep ""

/-- Text extraction of the read handler (lines 213-224): absent body or
absent block list yields the empty accumulator with no error. -/
def extractContent (doc : DocData) : Except String String :=
  match bodyItems doc with
  | none => Except.ok ""
  | some items => extractBody items

/-- The `console.error` entry of the create handler (line 143). -/
def logCreate (e : String) : String := "Error saving letter: " ++ e

/-- The `console.error` entry of the list handler (line 185). -/
def logList (e : String) : String := "Error fetching letters: " ++ e

/-- The `console.error` entry of the read handler (line 233). -/
def logRead (e : String) : String := "Error fetching letter: " ++ e

/-- 500 response of the create handler (line 144). -/
def create500 : HttpResponse :=
  ⟨500, RespBody.error "Failed to save letter to Google Drive"⟩

/-- 500 response of the list handler (line 186). -/
def list500 : HttpResponse :=
  ⟨500, RespBody.error "Failed to fetch letters from Google Drive"⟩

/-- 500 response of the read handler (line 234). -/
def read500 : HttpResponse :=
  ⟨500, RespBody.error "Failed to fetch letter from Google Drive"⟩

/-- `documentUrl` of a successful create response (line 139). -/
def docUrl (documentId : String) : String :=
  "https://docs.google.com/document/d/" ++ documentId ++ "/edit"

/-- The folder-ensure block of the create handler (lines 77-98): list
non-trashed "Letters" folders; if the result is non-empty take the first
entry, otherwise create the folder.  Returns the calls issued and either
the folder id or the thrown error. -/
def ensureLettersFolder (env : CreateEnv) : List Call × Except String String :=
  match env.filesList with
  | Except.error e => ([Call.filesList lettersFolderQuery], Except.error e)
  | Except.ok files =>
    match files with
    | f :: _ => ([Call.filesList lettersFolderQuery], Except.ok f.id)
    | [] =>
      match env.filesCreate with
      | Except.error e =>
        ([Call.filesList lettersFolderQuery, Call.filesCreate "Letters" folderMimeType],
         Except.error e)
      | Except.ok fid =>
        ([Call.filesList lettersFolderQuery, Call.filesCreate "Letters" folderMimeType],
         Except.ok fid)

/-- `POST /api/letters` (lines 62-146): validate fields, ensure the
"Letters" folder, create the document, insert the content as a single
`insertText` request at index 1, reparent the document, respond 201;
any thrown error is caught, logged, and answered with the generic 500. -/
def createLetter (body : CreateBody) (env : CreateEnv) : HandlerResult :=
  if falsy body.content || falsy body.title || falsy body.accessToken then
    ⟨[], [], ⟨400, RespBody.error "Missing required fields"⟩⟩
  else
    let content := body.content.getD ""
    let title := body.title.getD ""
    let ftrace := (ensureLettersFolder env).1
    match (ensureLettersFolder env).2 with
    | Except.error e => ⟨ftrace, [logCreate e], create500⟩
    | Except.ok folderId =>
      match env.documentsCreate with
      | Except.error e =>
        ⟨ftrace ++ [Call.documentsCreate title], [logCreate e], create500⟩
      | Except.ok documentId =>
        match env.documentsBatchUpdate with
        | Except.error e =>
          ⟨ftrace ++ [Call.documentsCreate title,
                      Call.documentsBatchUpdate documentId [⟨1, content⟩]],
           [logCreate e], create500⟩
        | Except.ok _ =>
          match env.filesUpdate with
          | Except.error e =>
            ⟨ftrace ++ [Call.documentsCreate title,
                        Call.documentsBatchUpdate documentId [⟨1, content⟩],
                        Call.filesUpdate documentId folderId],
             [logCreate e], create500⟩
          | Except.ok _ =>
            ⟨ftrace ++ [Call.documentsCreate title,
                        Call.documentsBatchUpdate documentId [⟨1, content⟩],
                        Call.filesUpdate documentId folderId],
             [],
             ⟨201, RespBody.created "Letter saved successfully" documentId (docUrl documentId)⟩⟩

/-- `GET /api/letters` (lines 149-188): validate the token, locate the
"Letters" folder, answer `letters: []` when it is absent, otherwise list
its documents; any thrown error is caught, logged, and answered with the
generic 500. -/
def listLetters (accessToken : Option String) (env : ListEnv) : HandlerResult :=
  if falsy accessToken then
    ⟨[], [], ⟨400, RespBody.error "Access token is required"⟩⟩
  else
    match env.filesList with
    | Except.error e => ⟨[Call.filesList lettersFolderQuery], [logList e], list500⟩
    | Except.ok files =>
      match files with
      | [] => ⟨[Call.filesList lettersFolderQuery], [], ⟨200, RespBody.letters []⟩⟩
      | f :: _ =>
        match env.filesInFolder with
        | Except.error e =>
          ⟨[Call.filesList lettersFolderQuery, Call.filesList (filesInFolderQuery f.id)],
           [logList e], list500⟩
        | Except.ok ls =>
          ⟨[Call.filesList lettersFolderQuery, Call.filesList (filesInFolderQuery f.id)],
           [], ⟨200, RespBody.letters ls⟩⟩

/-- `GET /api/letters/:id` (lines 191-236): validate the token, fetch
the document, extract its text content, respond with id, title and
content; any thrown error (fetch failure or extraction `TypeError`) is
caught, logged, and answered with the generic 500. -/
def readLetter (id : String) (accessToken : Option String) (env : ReadEnv) : HandlerResult :=
  if falsy accessToken then
    ⟨[], [], ⟨400, RespBody.error "Access token is required"⟩⟩
  else
    match env.documentsGet with
    | Except.error e => ⟨[Call.documentsGet id], [logRead e], read500⟩
    | Except.ok doc =>
      match extractContent doc with
      | Except.error e => ⟨[Call.documentsGet id], [logRead e], read500⟩
      | Except.ok content =>
        ⟨[Call.documentsGet id], [],
         ⟨200, RespBody.letter doc.documentId doc.title content⟩⟩

/-! ### Specification-side definitions

`concatBlocks` is written from the spec wording of the read flow — the
concatenation, in document order, of the text fragments carried by run
elements of paragraph blocks, with nothing inserted between fragments —
to be compared with the extraction embedded above from the code. -/

/-- The text fragment a run element carries, or empty when it carries
none. -/
def fragment (e : ParagraphElement) : String :=
  match e.textRun with
  | none => ""
  | some tr => tr.content

/-- Concatenation of the fragments of a paragraph's run elements, in
order, with no separator. -/
def concatFragments : List ParagraphElement → String
  | [] => ""
  | e :: rest => fragment e ++ concatFragments rest

/-- The text one block contributes: empty for non-paragraph blocks. -/
def blockText (item : StructuralElement) : String :=
  match item.paragraph with
  | none => ""
  | some p => concatFragments (p.elements.getD [])

/-- Concatenation over the blocks in document order. -/
def concatBlocks : List StructuralElement → String
  | [] => ""
  | item :: rest => blockText item ++ concatBlocks rest

/-- Whether a block, when it is a paragraph, carries a (possibly empty)
run-element sequence — the precondition under which the extraction loop
cannot throw. -/
def hasElements (item : StructuralElement) : Bool :=
  match item.paragraph with
  | none => true
  | some p => p.elements.isSome

/-! ### Concrete inputs used by the witnesses -/

/-- A create request with all three fields present and non-empty. -/
def bodyOk : CreateBody := ⟨some "Hello", some "Title", some "tok"⟩

/-- A create oracle where every downstream call succeeds and the
"Letters" folder already exists. -/
def envAllOk : CreateEnv :=
  ⟨Except.ok [⟨"folder0", "Letters"⟩], Except.ok "folder1",
   Except.ok "doc0", Except.ok (), Except.ok ()⟩

/-- A create oracle where every downstream call would fail. -/
def envAllFail : CreateEnv :=
  ⟨Except.error "f1", Except.error "f2", Except.error "f3",
   Except.error "f4", Except.error "f5"⟩

/-- A create oracle where no "Letters" folder exists yet. -/
def envNoFolder : CreateEnv :=
  ⟨Except.ok [], Except.ok "folder1", Except.ok "doc0",
   Except.ok (), Except.ok ()⟩

/-- A list oracle with no "Letters" folder; the folder-contents query
would fail, demonstrating that it is never issued. -/
def lenvNoFolder : ListEnv := ⟨Except.ok [], Except.error "boom"⟩

/-- A list oracle where every downstream call would fail. -/
def lenvFail : ListEnv := ⟨Except.error "g1", Except.error "g2"⟩

/-- A read oracle where the document fetch fails. -/
def renvFail : ReadEnv := ⟨Except.error "g3"⟩

/-- Blocks of the "Hello, world!" example: two paragraphs, the second
split across two runs. -/
def helloItems : List StructuralElement :=
  [⟨some ⟨some [⟨some ⟨"Hello, "⟩⟩]⟩⟩,
   ⟨some ⟨some [⟨some ⟨"wor"⟩⟩, ⟨some ⟨"ld!"⟩⟩]⟩⟩]

/-- The "Hello, world!" document. -/
def helloDoc : DocData := ⟨"docH", "Greeting", some ⟨some helloItems⟩⟩

/-- Read oracle returning the "Hello, world!" document. -/
def renvHello : ReadEnv := ⟨Except.ok helloDoc⟩

/-- A document whose body holds only a non-paragraph block (a table). -/
def tableDoc : DocData := ⟨"docT", "Table only", some ⟨some [⟨none⟩]⟩⟩

/-- Read oracle returning the table-only document. -/
def renvTable : ReadEnv := ⟨Except.ok tableDoc⟩

/-- Blocks containing a paragraph without a run-element sequence. -/
def badItems : List StructuralElement := [⟨some ⟨none⟩⟩]

/-- A document containing a paragraph without a run-element sequence. -/
def badDoc : DocData := ⟨"docB", "Bad paragraph", some ⟨some badItems⟩⟩

/-- Read oracle returning the malformed document. -/
def renvBad : ReadEnv := ⟨Except.ok badDoc⟩

/-! ### Helper lemmas -/

/-- Folding `runText` appends the fragment concatenation to the
accumulator. -/
theorem foldl_runText (els : List ParagraphElement) (acc : String) :
    els.foldl runText acc = acc ++ concatFragments els := by
  induction els generalizing acc with
  | nil => simp [concatFragments]
  | cons e rest ih =>
    rw [List.foldl_cons, ih, concatFragments]
    cases h : e.textRun with
    | none => simp [runText, h, fragment]
    | some tr => simp [runText, h, fragment, String.append_assoc]

/-- When every paragraph carries a run-element sequence, the extraction
loop succeeds and produces the block concatenation. -/
theorem foldlM_paragraphStep_ok (items : List StructuralElement) :
    ∀ acc : String, (∀ item ∈ items, hasElements item = true) →
      items.foldlM paragraphStep acc = Except.ok (acc ++ concatBlocks items) := by
  induction items with
  | nil =>
    intro acc _
    simp [List.foldlM_nil, concatBlocks, Pure.pure, Except.pure]
  | cons item rest ih =>
    intro acc h
    have hi := h item (List.mem_cons_self ..)
    have hrest : ∀ i ∈ rest, hasElements i = true :=
      fun i hm => h i (List.mem_cons_of_mem _ hm)
    rw [List.foldlM_cons]
    cases hp : item.paragraph with
    | none =>
      simp [paragraphStep, hp, Bind.bind, Except.bind, ih _ hrest,
            concatBlocks, blockText]
    | some p =>
      simp only [hasElements, hp] at hi
      cases he : p.elements with
      | none => rw [he] at hi; simp at hi
      | some els =>
        simp [paragraphStep, hp, he, Bind.bind, Except.bind, foldl_runText,
              ih _ hrest, concatBlocks, blockText, String.append_assoc]

/-- When some paragraph lacks a run-element sequence, the extraction
loop throws the `forEach`-on-undefined error. -/
theorem foldlM_paragraphStep_error (items : List StructuralElement) :
    ∀ acc : String, (¬ ∀ item ∈ items, hasElements item = true) →
      items.foldlM paragraphStep acc = Except.error elementsUndefinedError := by
  induction items with
  | nil => intro acc h; simp at h
  | cons item rest ih =>
    intro acc h
    rw [List.foldlM_cons]
    cases hp : item.paragraph with
    | none =>
      have hr : ¬ ∀ i ∈ rest, hasElements i = true := by
        intro hall
        refine h ?_
        intro i hm
        rcases List.mem_cons.mp hm with rfl | hm
        · simp [hasElements, hp]
        · exact hall i hm
      simp [paragraphStep, hp, Bind.bind, Except.bind, ih _ hr]
    | some p =>
      cases he : p.elements with
      | none => simp [paragraphStep, hp, he, Bind.bind, Except.bind]
      | some els =>
        have hr : ¬ ∀ i ∈ rest, hasElements i = true := by
          intro hall
          refine h ?_
          intro i hm
          rcases List.mem_cons.mp hm with rfl | hm
          · simp [hasElements, hp, he]
          · exact hall i hm
        simp [paragraphStep, hp, he, Bind.bind, Except.bind, ih _ hr]

/-- The extraction loop succeeds exactly when every paragraph carries a
run-element sequence. -/
theorem extractBody_ok_iff (items : List StructuralElement) :
    (∃ s, extractBody items = Except.ok s) ↔
      (∀ item ∈ items, hasElements item = true) := by
  constructor
  · rintro ⟨s, hs⟩
    by_contra hall
    rw [extractBody, foldlM_paragraphStep_error items "" hall] at hs
    simp at hs
  · intro hall
    exact ⟨concatBlocks items, by
      rw [extractBody, foldlM_paragraphStep_ok items "" hall]; simp⟩

/-- Blocks without paragraphs contribute nothing. -/
theorem concatBlocks_no_paragraph (items : List StructuralElement)
    (h : ∀ item ∈ items, item.paragraph = none) : concatBlocks items = "" := by
  induction items with
  | nil => rfl
  | cons item rest ih =>
    rw [concatBlocks, blockText, h item (List.mem_cons_self ..),
        ih fun i hm => h i (List.mem_cons_of_mem _ hm)]
    simp

/-- The folder-ensure step issues either the lookup alone or the lookup
followed by one folder create. -/
theorem ensureLettersFolder_trace (env : CreateEnv) :
    (ensureLettersFolder env).1 = [Call.filesList lettersFolderQuery] ∨
    (ensureLettersFolder env).1 =
      [Call.filesList lettersFolderQuery,
       Call.filesCreate "Letters" folderMimeType] := by
  cases hf : env.filesList with
  | error e => left; simp [ensureLettersFolder, hf]
  | ok files =>
    cases files with
    | cons f rest => left; simp [ensureLettersFolder, hf]
    | nil =>
      cases hc : env.filesCreate with
      | error e => right; simp [ensureLettersFolder, hf, hc]
      | ok fid => right; simp [ensureLettersFolder, hf, hc]

/-- The folder-lookup query differs from every folder-contents query. -/
theorem lettersQuery_ne_filesQuery (fid : String) :
    lettersFolderQuery ≠ filesInFolderQuery fid := by
  intro h
  rw [lettersFolderQuery, filesInFolderQuery, String.ext_iff] at h
  simp [String.data_append] at h

/-- Run classification of the create handler on a valid request: either
the 201 success with empty log, or the fixed generic 500 with exactly
the error detail logged; the call trace never repeats a call. -/
theorem createLetter_classify (body : CreateBody) (env : CreateEnv)
    (hc : falsy body.content = false) (ht : falsy body.title = false)
    (ha : falsy body.accessToken = false) :
    ((∃ documentId, (createLetter body env).resp =
        ⟨201, RespBody.created "Letter saved successfully" documentId
                (docUrl documentId)⟩ ∧
        (createLetter body env).log = []) ∨
     (∃ e, (createLetter body env).resp = create500 ∧
        (createLetter body env).log = [logCreate e])) ∧
    (createLetter body env).trace.Nodup := by
  have htr := ensureLettersFolder_trace env
  cases hf : (ensureLettersFolder env).2 with
  | error e =>
    have heq : createLetter body env =
        ⟨(ensureLettersFolder env).1, [logCreate e], create500⟩ := by
      simp [createLetter, hc, ht, ha, hf]
    rw [heq]
    exact ⟨Or.inr ⟨e, rfl, rfl⟩, by rcases htr with h | h <;> rw [h] <;> simp⟩
  | ok folderId =>
    cases hd : env.documentsCreate with
    | error e =>
      have heq : createLetter body env =
          ⟨(ensureLettersFolder env).1 ++
            [Call.documentsCreate (body.title.getD "")],
           [logCreate e], create500⟩ := by
        simp [createLetter, hc, ht, ha, hf, hd]
      rw [heq]
      exact ⟨Or.inr ⟨e, rfl, rfl⟩, by rcases htr with h | h <;> rw [h] <;> simp⟩
    | ok documentId =>
      cases hb : env.documentsBatchUpdate with
      | error e =>
        have heq : createLetter body env =
            ⟨(ensureLettersFolder env).1 ++
              [Call.documentsCreate (body.title.getD ""),
               Call.documentsBatchUpdate documentId [⟨1, body.content.getD ""⟩]],
             [logCreate e], create500⟩ := by
          simp [createLetter, hc, ht, ha, hf, hd, hb]
        rw [heq]
        exact ⟨Or.inr ⟨e, rfl, rfl⟩, by rcases htr with h | h <;> rw [h] <;> simp⟩
      | ok u =>
        cases hu : env.filesUpdate with
        | error e =>
          have heq : createLetter body env =
              ⟨(ensureLettersFolder env).1 ++
                [Call.documentsCreate (body.title.getD ""),
                 Call.documentsBatchUpdate documentId [⟨1, body.content.getD ""⟩],
                 Call.filesUpdate documentId folderId],
               [logCreate e], create500⟩ := by
            simp [createLetter, hc, ht, ha, hf, hd, hb, hu]
          rw [heq]
          exact ⟨Or.inr ⟨e, rfl, rfl⟩, by rcases htr with h | h <;> rw [h] <;> simp⟩
        | ok v =>
          have heq : createLetter body env =
              ⟨(ensureLettersFolder env).1 ++
                [Call.documentsCreate (body.title.getD ""),
                 Call.documentsBatchUpdate documentId [⟨1, body.content.getD ""⟩],
                 Call.filesUpdate documentId folderId],
               [],
               ⟨201, RespBody.created "Letter saved successfully" documentId
                       (docUrl documentId)⟩⟩ := by
            simp [createLetter, hc, ht, ha, hf, hd, hb, hu]
          rw [heq]
          exact ⟨Or.inl ⟨documentId, rfl, rfl⟩,
                 by rcases htr with h | h <;> rw [h] <;> simp⟩

/-- Run classification of the list handler on a valid token: either a
200 with the letters array and empty log, or the fixed generic 500 with
exactly the error detail logged; the call trace never repeats a call. -/
theorem listLetters_classify (tok : Option String) (env : ListEnv)
    (htok : falsy tok = false) :
    ((∃ ls, (listLetters tok env).resp = ⟨200, RespBody.letters ls⟩ ∧
        (listLetters tok env).log = []) ∨
     (∃ e, (listLetters tok env).resp = list500 ∧
        (listLetters tok env).log = [logList e])) ∧
    (listLetters tok env).trace.Nodup := by
  cases hf : env.filesList with
  | error e =>
    have heq : listLetters tok env =
        ⟨[Call.filesList lettersFolderQuery], [logList e], list500⟩ := by
      simp [listLetters, htok, hf]
    rw [heq]
    exact ⟨Or.inr ⟨e, rfl, rfl⟩, by simp⟩
  | ok files =>
    cases files with
    | nil =>
      have heq : listLetters tok env =
          ⟨[Call.filesList lettersFolderQuery], [],
           ⟨200, RespBody.letters []⟩⟩ := by
        simp [listLetters, htok, hf]
      rw [heq]
      exact ⟨Or.inl ⟨[], rfl, rfl⟩, by simp⟩
    | cons f rest =>
      cases hg : env.filesInFolder with
      | error e =>
        have heq : listLetters tok env =
            ⟨[Call.filesList lettersFolderQuery,
              Call.filesList (filesInFolderQuery f.id)],
             [logList e], list500⟩ := by
          simp [listLetters, htok, hf, hg]
        rw [heq]
        exact ⟨Or.inr ⟨e, rfl, rfl⟩,
               by simp [List.nodup_cons, lettersQuery_ne_filesQuery]⟩
      | ok ls =>
        have heq : listLetters tok env =
            ⟨[Call.filesList lettersFolderQuery,
              Call.filesList (filesInFolderQuery f.id)],
             [], ⟨200, RespBody.letters ls⟩⟩ := by
          simp [listLetters, htok, hf, hg]
        rw [heq]
        exact ⟨Or.inl ⟨ls, rfl, rfl⟩,
               by simp [List.nodup_cons, lettersQuery_ne_filesQuery]⟩

/-- Run classification of the read handler on a valid token: either a
200 with the document data and empty log, or the fixed generic 500 with
exactly the error detail logged; the call trace never repeats a call. -/
theorem readLetter_classify (id : String) (tok : Option String) (env : ReadEnv)
    (htok : falsy tok = false) :
    ((∃ i t c, (readLetter id tok env).resp = ⟨200, RespBody.letter i t c⟩ ∧
        (readLetter id tok env).log = []) ∨
     (∃ e, (readLetter id tok env).resp = read500 ∧
        (readLetter id tok env).log = [logRead e])) ∧
    (readLetter id tok env).trace.Nodup := by
  cases hg : env.documentsGet with
  | error e =>
    have heq : readLetter id tok env =
        ⟨[Call.documentsGet id], [logRead e], read500⟩ := by
      simp [readLetter, htok, hg]
    rw [heq]
    exact ⟨Or.inr ⟨e, rfl, rfl⟩, by simp⟩
  | ok doc =>
    cases hx : extractContent doc with
    | error e =>
      have heq : readLetter id tok env =
          ⟨[Call.documentsGet id], [logRead e], read500⟩ := by
        simp [readLetter, htok, hg, hx]
      rw [heq]
      exact ⟨Or.inr ⟨e, rfl, rfl⟩, by simp⟩
    | ok content =>
      have heq : readLetter id tok env =
          ⟨[Call.documentsGet id], [],
           ⟨200, RespBody.letter doc.documentId doc.title content⟩⟩ := by
        simp [readLetter, htok, hg, hx]
      rw [heq]
      exact ⟨Or.inl ⟨doc.documentId, doc.title, content, rfl, rfl⟩, by simp⟩

/-! ### Claim theorems -/

/-- C1: for a create-letter request with non-missing content, title and
accessToken, when every downstream call succeeds the handler performs
exactly the pipeline: ensure the "Letters" folder (lookup, or lookup
then one create), create a document with the given title, insert the
full letter content as a single text run at fixed index 1 via one
batch-update call, then reparent the document into the folder — in this
order, with no chunking and no repeated (retried) call. -/
theorem create_pipeline_order (body : CreateBody) (env : CreateEnv)
    (ftrace : List Call) (folderId documentId : String)
    (hc : falsy body.content = false) (ht : falsy body.title = false)
    (ha : falsy body.accessToken = false)
    (hf : ensureLettersFolder env = (ftrace, Except.ok folderId))
    (hd : env.documentsCreate = Except.ok documentId)
    (hb : env.documentsBatchUpdate = Except.ok ())
    (hu : env.filesUpdate = Except.ok ()) :
    createLetter body env =
      ⟨ftrace ++ [Call.documentsCreate (body.title.getD ""),
                  Call.documentsBatchUpdate documentId [⟨1, body.content.getD ""⟩],
                  Call.filesUpdate documentId folderId],
       [],
       ⟨201, RespBody.created "Letter saved successfully" documentId
               (docUrl documentId)⟩⟩ ∧
    (ftrace = [Call.filesList lettersFolderQuery] ∨
     ftrace = [Call.filesList lettersFolderQuery,
               Call.filesCreate "Letters" folderMimeType]) ∧
    (createLetter body env).trace.Nodup := by
  have htr := ensureLettersFolder_trace env
  rw [hf] at htr
  have htr' : ftrace = [Call.filesList lettersFolderQuery] ∨
      ftrace = [Call.filesList lettersFolderQuery,
                Call.filesCreate "Letters" folderMimeType] := htr
  have heq : createLetter body env =
      ⟨ftrace ++ [Call.documentsCreate (body.title.getD ""),
                  Call.documentsBatchUpdate documentId [⟨1, body.content.getD ""⟩],
                  Call.filesUpdate documentId folderId],
       [],
       ⟨201, RespBody.created "Letter saved successfully" documentId
               (docUrl documentId)⟩⟩ := by
    simp [createLetter, hc, ht, ha, hf, hd, hb, hu]
  refine ⟨heq, htr', ?_⟩
  rw [heq]
  rcases htr' with rfl | rfl <;> simp

/-- Witness for C1 at a concrete request and an all-success oracle. -/
theorem create_pipeline_order_witness :
    createLetter bodyOk envAllOk =
      ⟨[Call.filesList lettersFolderQuery] ++
        [Call.documentsCreate "Title",
         Call.documentsBatchUpdate "doc0" [⟨1, "Hello"⟩],
         Call.filesUpdate "doc0" "folder0"],
       [],
       ⟨201, RespBody.created "Letter saved successfully" "doc0"
               (docUrl "doc0")⟩⟩ ∧
    ([Call.filesList lettersFolderQuery] = [Call.filesList lettersFolderQuery] ∨
     [Call.filesList lettersFolderQuery] =
       [Call.filesList lettersFolderQuery,
        Call.filesCreate "Letters" folderMimeType]) ∧
    (createLetter bodyOk envAllOk).trace.Nodup :=
  create_pipeline_order bodyOk envAllOk [Call.filesList lettersFolderQuery]
    "folder0" "doc0" rfl rfl rfl rfl rfl rfl rfl

/-- C2: for a fetched document whose body is present and whose
paragraphs all carry run-element sequences, the read-letter content is
the concatenation, in document order, of the text fragments carried by
run elements of paragraph blocks, with no separator injected. -/
theorem read_concat_runs (id : String) (tok : Option String) (env : ReadEnv)
    (doc : DocData) (items : List StructuralElement)
    (htok : falsy tok = false)
    (hget : env.documentsGet = Except.ok doc)
    (hbody : bodyItems doc = some items)
    (hall : ∀ item ∈ items, hasElements item = true) :
    readLetter id tok env =
      ⟨[Call.documentsGet id], [],
       ⟨200, RespBody.letter doc.documentId doc.title (concatBlocks items)⟩⟩ := by
  have hx : extractContent doc = Except.ok (concatBlocks items) := by
    simp only [extractContent, hbody, extractBody]
    rw [foldlM_paragraphStep_ok items "" hall]
    simp
  simp [readLetter, htok, hget, hx]

/-- Witness for C2 at the "Hello, world!" document split across
multiple runs. -/
theorem read_concat_runs_witness :
    readLetter "docH" (some "tok") renvHello =
      ⟨[Call.documentsGet "docH"], [],
       ⟨200, RespBody.letter "docH" "Greeting" (concatBlocks helloItems)⟩⟩ ∧
    concatBlocks helloItems = "Hello, world!" :=
  ⟨read_concat_runs "docH" (some "tok") renvHello helloDoc helloItems
     rfl rfl rfl (by decide), rfl⟩

/-- C3: a fetched document whose structured body is absent, or whose
body holds only non-paragraph blocks, yields content equal to the empty
string with a success response, not an error. -/
theorem read_empty_content_ok (id : String) (tok : Option String) (env : ReadEnv)
    (doc : DocData)
    (htok : falsy tok = false)
    (hget : env.documentsGet = Except.ok doc)
    (h : bodyItems doc = none ∨
         ∃ items, bodyItems doc = some items ∧
           ∀ item ∈ items, item.paragraph = none) :
    readLetter id tok env =
      ⟨[Call.documentsGet id], [],
       ⟨200, RespBody.letter doc.documentId doc.title ""⟩⟩ := by
  have hx : extractContent doc = Except.ok "" := by
    rcases h with h | ⟨items, hi, hall⟩
    · rw [extractContent, h]
    · simp only [extractContent, hi, extractBody]
      rw [foldlM_paragraphStep_ok items ""
            (fun i hm => by simp [hasElements, hall i hm]),
          concatBlocks_no_paragraph items hall]
      simp
  simp [readLetter, htok, hget, hx]

/-- Witness for C3 at a document whose body holds only a table block. -/
theorem read_empty_content_ok_witness :
    readLetter "docT" (some "tok") renvTable =
      ⟨[Call.documentsGet "docT"], [],
       ⟨200, RespBody.letter "docT" "Table only" ""⟩⟩ :=
  read_empty_content_ok "docT" (some "tok") renvTable tableDoc rfl rfl
    (Or.inr ⟨[⟨none⟩], rfl, by decide⟩)

/-- C4: a create-letter request with content, title or accessToken
missing is answered 400 with an error body and issues no downstream
call. -/
theorem create_missing_field_400 (body : CreateBody) (env : CreateEnv)
    (h : body.content = none ∨ body.title = none ∨ body.accessToken = none) :
    createLetter body env =
      ⟨[], [], ⟨400, RespBody.error "Missing required fields"⟩⟩ := by
  rcases h with h | h | h <;> simp [createLetter, falsy, h]

/-- Witness for C4: content missing, every downstream call would fail,
yet none is issued. -/
theorem create_missing_field_400_witness :
    createLetter ⟨none, some "Title", some "tok"⟩ envAllFail =
      ⟨[], [], ⟨400, RespBody.error "Missing required fields"⟩⟩ :=
  create_missing_field_400 ⟨none, some "Title", some "tok"⟩ envAllFail
    (Or.inl rfl)

/-- C5: the folder-ensure step queries for non-trashed folders with the
exact target name; a non-empty result yields the first entry's id, an
empty result triggers exactly one create call with that name and the
folder mime type, whose new id is used. -/
theorem ensure_folder_first_or_create (env : CreateEnv) (files : List FolderRef)
    (h : env.filesList = Except.ok files) :
    (∀ f rest, files = f :: rest →
       ensureLettersFolder env =
         ([Call.filesList lettersFolderQuery], Except.ok f.id)) ∧
    (files = [] → ∀ fid, env.filesCreate = Except.ok fid →
       ensureLettersFolder env =
         ([Call.filesList lettersFolderQuery,
           Call.filesCreate "Letters" folderMimeType], Except.ok fid)) := by
  constructor
  · rintro f rest rfl
    simp [ensureLettersFolder, h]
  · rintro rfl fid hc
    simp [ensureLettersFolder, h, hc]

/-- Witness for C5 at an oracle with no existing "Letters" folder. -/
theorem ensure_folder_first_or_create_witness :
    ensureLettersFolder envNoFolder =
      ([Call.filesList lettersFolderQuery,
        Call.filesCreate "Letters" folderMimeType], Except.ok "folder1") :=
  (ensure_folder_first_or_create envNoFolder [] rfl).2 rfl "folder1" rfl

/-- C6: a list-letters request with a token, when the folder lookup
returns no "Letters" folder, succeeds with the empty letters array and
issues no second query. -/
theorem list_no_folder_empty (tok : Option String) (env : ListEnv)
    (htok : falsy tok = false) (h : env.filesList = Except.ok []) :
    listLetters tok env =
      ⟨[Call.filesList lettersFolderQuery], [],
       ⟨200, RespBody.letters []⟩⟩ := by
  simp [listLetters, htok, h]

/-- Witness for C6: the folder-contents query of the oracle would fail,
demonstrating it is never issued. -/
theorem list_no_folder_empty_witness :
    listLetters (some "tok") lenvNoFolder =
      ⟨[Call.filesList lettersFolderQuery], [],
       ⟨200, RespBody.letters []⟩⟩ :=
  list_no_folder_empty (some "tok") lenvNoFolder rfl rfl

/-- C7: list-letters and read-letter requests with a missing accessToken
are answered 400 with zero downstream calls, whatever the collaborators
would have returned. -/
theorem missing_token_400_no_calls (id : String) (lenv : ListEnv) (renv : ReadEnv) :
    listLetters none lenv =
      ⟨[], [], ⟨400, RespBody.error "Access token is required"⟩⟩ ∧
    readLetter id none renv =
      ⟨[], [], ⟨400, RespBody.error "Access token is required"⟩⟩ :=
  ⟨by simp [listLetters, falsy], by simp [readLetter, falsy]⟩

/-- C8: on a valid request to create, list or read, a failure of any
downstream call makes the handler answer that handler's fixed generic
500 message; the single log entry carries exactly the original error
detail returned by the failing call, which never appears in the
response body (the response is the same constant whatever the detail),
and no call trace ever repeats a call (no retry). Every failure point
of the three pipelines is covered. -/
theorem downstream_failure_500_generic (body : CreateBody) (cenv : CreateEnv)
    (tok : Option String) (lenv : ListEnv) (id : String) (renv : ReadEnv)
    (hc : falsy body.content = false) (ht : falsy body.title = false)
    (ha : falsy body.accessToken = false) (htok : falsy tok = false) :
    (∀ e, cenv.filesList = Except.error e →
       createLetter body cenv =
         ⟨[Call.filesList lettersFolderQuery], [logCreate e], create500⟩) ∧
    (∀ e, cenv.filesList = Except.ok [] → cenv.filesCreate = Except.error e →
       createLetter body cenv =
         ⟨[Call.filesList lettersFolderQuery,
           Call.filesCreate "Letters" folderMimeType],
          [logCreate e], create500⟩) ∧
    (∀ e ftrace folderId,
       ensureLettersFolder cenv = (ftrace, Except.ok folderId) →
       cenv.documentsCreate = Except.error e →
       createLetter body cenv =
         ⟨ftrace ++ [Call.documentsCreate (body.title.getD "")],
          [logCreate e], create500⟩) ∧
    (∀ e ftrace folderId documentId,
       ensureLettersFolder cenv = (ftrace, Except.ok folderId) →
       cenv.documentsCreate = Except.ok documentId →
       cenv.documentsBatchUpdate = Except.error e →
       createLetter body cenv =
         ⟨ftrace ++ [Call.documentsCreate (body.title.getD ""),
                     Call.documentsBatchUpdate documentId
                       [⟨1, body.content.getD ""⟩]],
          [logCreate e], create500⟩) ∧
    (∀ e ftrace folderId documentId,
       ensureLettersFolder cenv = (ftrace, Except.ok folderId) →
       cenv.documentsCreate = Except.ok documentId →
       cenv.documentsBatchUpdate = Except.ok () →
       cenv.filesUpdate = Except.error e →
       createLetter body cenv =
         ⟨ftrace ++ [Call.documentsCreate (body.title.getD ""),
                     Call.documentsBatchUpdate documentId
                       [⟨1, body.content.getD ""⟩],
                     Call.filesUpdate documentId folderId],
          [logCreate e], create500⟩) ∧
    (∀ e, lenv.filesList = Except.error e →
       listLetters tok lenv =
         ⟨[Call.filesList lettersFolderQuery], [logList e], list500⟩) ∧
    (∀ e f rest, lenv.filesList = Except.ok (f :: rest) →
       lenv.filesInFolder = Except.error e →
       listLetters tok lenv =
         ⟨[Call.filesList lettersFolderQuery,
           Call.filesList (filesInFolderQuery f.id)],
          [logList e], list500⟩) ∧
    (∀ e, renv.documentsGet = Except.error e →
       readLetter id tok renv =
         ⟨[Call.documentsGet id], [logRead e], read500⟩) ∧
    (∀ e doc, renv.documentsGet = Except.ok doc →
       extractContent doc = Except.error e →
       readLetter id tok renv =
         ⟨[Call.documentsGet id], [logRead e], read500⟩) ∧
    (createLetter body cenv).trace.Nodup ∧
    (listLetters tok lenv).trace.Nodup ∧
    (readLetter id tok renv).trace.Nodup := by
  refine ⟨?_, ?_, ?_, ?_, ?_, ?_, ?_, ?_, ?_,
          (createLetter_classify body cenv hc ht ha).2,
          (listLetters_classify tok lenv htok).2,
          (readLetter_classify id tok renv htok).2⟩
  · intro e hfl
    simp [createLetter, hc, ht, ha, ensureLettersFolder, hfl]
  · intro e hfl hfc
    simp [createLetter, hc, ht, ha, ensureLettersFolder, hfl, hfc]
  · intro e ftrace folderId hf hd
    simp [createLetter, hc, ht, ha, hf, hd]
  · intro e ftrace folderId documentId hf hd hb
    simp [createLetter, hc, ht, ha, hf, hd, hb]
  · intro e ftrace folderId documentId hf hd hb hu
    simp [createLetter, hc, ht, ha, hf, hd, hb, hu]
  · intro e hfl
    simp [listLetters, htok, hfl]
  · intro e f rest hfl hg
    simp [listLetters, htok, hfl, hg]
  · intro e hg
    simp [readLetter, htok, hg]
  · intro e doc hg hx
    simp [readLetter, htok, hg, hx]

/-- Witness for C8 at oracles whose downstream calls fail: each handler
returns its fixed generic 500 and logs exactly the oracle's original
error detail. -/
theorem downstream_failure_500_generic_witness :
    createLetter bodyOk envAllFail =
      ⟨[Call.filesList lettersFolderQuery], [logCreate "f1"], create500⟩ ∧
    listLetters (some "tok") lenvFail =
      ⟨[Call.filesList lettersFolderQuery], [logList "g1"], list500⟩ ∧
    readLetter "docB" (some "tok") renvFail =
      ⟨[Call.documentsGet "docB"], [logRead "g3"], read500⟩ := by
  have h := downstream_failure_500_generic bodyOk envAllFail (some "tok")
    lenvFail "docB" renvFail rfl rfl rfl rfl
  exact ⟨h.1 "f1" rfl, h.2.2.2.2.2.1 "g1" rfl, h.2.2.2.2.2.2.2.1 "g3" rfl⟩

/-- C9: a create-letter request in which a field is present but equal to
the empty string is answered 400 exactly as if the field were missing —
the presence check treats the empty string as absent — with no
downstream call. -/
theorem create_empty_field_400 (body : CreateBody) (env : CreateEnv)
    (h : body.content = some "" ∨ body.title = some "" ∨
         body.accessToken = some "") :
    createLetter body env =
      ⟨[], [], ⟨400, RespBody.error "Missing required fields"⟩⟩ := by
  have hf : falsy (some "") = true := rfl
  rcases h with h | h | h <;> simp [createLetter, h, hf]

/-- Witness for C9: empty content, every downstream call would fail,
yet none is issued. -/
theorem create_empty_field_400_witness :
    createLetter ⟨some "", some "Title", some "tok"⟩ envAllFail =
      ⟨[], [], ⟨400, RespBody.error "Missing required fields"⟩⟩ :=
  create_empty_field_400 ⟨some "", some "Title", some "tok"⟩ envAllFail
    (Or.inl rfl)

/-- C10: the text extraction succeeds exactly when every paragraph block
carries a (possibly empty) run-element sequence, and a fetched body
containing a paragraph block without one makes the read handler abort
into the generic failure path rather than return empty content. -/
theorem extraction_totality (id : String) (tok : Option String) (env : ReadEnv)
    (doc : DocData) (items : List StructuralElement)
    (htok : falsy tok = false)
    (hget : env.documentsGet = Except.ok doc)
    (hbody : bodyItems doc = some items)
    (hbad : ¬ ∀ item ∈ items, hasElements item = true) :
    (∀ its : List StructuralElement,
       ((∃ s, extractBody its = Except.ok s) ↔
        ∀ item ∈ its, hasElements item = true)) ∧
    readLetter id tok env =
      ⟨[Call.documentsGet id], [logRead elementsUndefinedError], read500⟩ := by
  refine ⟨extractBody_ok_iff, ?_⟩
  have hx : extractContent doc = Except.error elementsUndefinedError := by
    simp only [extractContent, hbody, extractBody]
    exact foldlM_paragraphStep_error items "" hbad
  simp [readLetter, htok, hget, hx]

/-- Witness for C10 at a document containing a paragraph without a
run-element sequence. -/
theorem extraction_totality_witness :
    (∀ its : List StructuralElement,
       ((∃ s, extractBody its = Except.ok s) ↔
        ∀ item ∈ its, hasElements item = true)) ∧
    readLetter "docB" (some "tok") renvBad =
      ⟨[Call.documentsGet "docB"], [logRead elementsUndefinedError], read500⟩ :=
  extraction_totality "docB" (some "tok") renvBad badDoc badItems
    rfl rfl rfl (by decide)

end WordLetter
